import Mathlib

/-!
Shallow embedding of the VS Code LLM bridge slice of the repository:
the Bridge Server's Express handlers (extension entry file), and the
streaming-capable Protocol Adapter (`vs-llm-fixed.ts`, second revision,
whose `getModelInstance` synthesizes an event stream).
-/

namespace VsLlm

/-- JavaScript runtime values that can occur in a parsed JSON field such as
`result.model?.promptTokens`.  `absent` stands for `undefined` (missing
field or missing object), `jnan` for the numeric NaN value.  Numbers are
modelled as integers: the token counters of the protocol are integral. -/
inductive JVal
  | absent
  | jnull
  | jbool (b : Bool)
  | jnum (n : Int)
  | jnan
  | jstr (s : String)
deriving DecidableEq, Repr

/-- JavaScript truthiness of a `JVal`: `undefined`, `null`, `false`, `0`,
NaN and the empty string are falsy, everything else truthy. -/
def truthy : JVal → Bool
  | .absent => false
  | .jnull => false
  | .jbool b => b
  | .jnum n => n != 0
  | .jnan => false
  | .jstr s => s != ""

/-- JavaScript `Number(v)`, with `none` standing for NaN:
`Number(undefined)` and `Number(NaN)` are NaN, `Number(null) = 0`,
booleans map to 0/1, the empty string to 0, and other strings parse as a
decimal integer or give NaN. -/
def toNumber : JVal → Option Int
  | .absent => none
  | .jnull => some 0
  | .jbool b => some (if b then 1 else 0)
  | .jnum n => some n
  | .jnan => none
  | .jstr s => if s = "" then some 0 else s.toInt?

/-- The usage-counter coercion of `vs-llm-fixed.ts`
(`v && !isNaN(Number(v)) ? Number(v) : 0`), used for each of
`promptTokens`, `completionTokens`, `totalTokens`.  It is a total
function: the embedded expression cannot throw. -/
def coerceToken (v : JVal) : Int :=
  if truthy v then
    match toNumber v with
    | some n => n
    | none => 0
  else 0

/-- The `model` object of a parsed `VSCodeChatResponse`, with the three
optional token counters modelled as raw JavaScript values. -/
structure RespModel where
  id : Option String
  promptTokens : JVal
  completionTokens : JVal
  totalTokens : JVal
deriving DecidableEq, Repr

/-- The bridge's `/api/chat` reply as parsed by the adapter
(`VSCodeChatResponse` in `vs-llm-fixed.ts`). -/
structure VSCodeChatResponse where
  success : Bool
  response : Option String
  model : Option RespModel
  error : Option String
deriving DecidableEq, Repr

/-- `result.model?.f` : optional chaining through the `model` object. -/
def fieldOf (m : Option RespModel) (f : RespModel → JVal) : JVal :=
  match m with
  | some r => f r
  | none => .absent

/-- The `usage` object of an OpenAI-style response or final chunk. -/
structure Usage where
  prompt_tokens : Int
  completion_tokens : Int
  total_tokens : Int
deriving DecidableEq, Repr

/-- The usage object built by both the streaming and the non-streaming
paths of `getModelInstance` in `vs-llm-fixed.ts`. -/
def mkUsage (m : Option RespModel) : Usage :=
  { prompt_tokens := coerceToken (fieldOf m RespModel.promptTokens)
    completion_tokens := coerceToken (fieldOf m RespModel.completionTokens)
    total_tokens := coerceToken (fieldOf m RespModel.totalTokens) }

/-- `result.model?.id || modelNameOption` : the model name placed in the
adapter's outward response. -/
def modelIdOrDefault (m : Option RespModel) (d : String) : String :=
  match m with
  | some r =>
    match r.id with
    | some s => if s = "" then d else s
    | none => d
  | none => d

/-- One typed part of a polymorphic message content array
(`{type, text?}` as inspected by `part.type === 'text'` and
`textPart?.text`). -/
structure Part where
  type : String
  text : Option String
deriving DecidableEq, Repr

/-- The shape of `msg.content` as inspected by the adapter:
a string, an array of typed parts, or anything else. -/
inductive MsgContent
  | str (s : String)
  | parts (ps : List Part)
  | other
deriving DecidableEq, Repr

/-- Content normalization of `getModelInstance` in `vs-llm-fixed.ts`:
a string is used verbatim; for an array, the first part whose `type` is
`"text"` supplies `textPart?.text || ''` (for a string-valued `text`
field `t`, `t || ''` equals `t`, also when `t` is empty); any other
shape yields the empty string. -/
def normalizeContent : MsgContent → String
  | .str s => s
  | .parts ps =>
    match ps.find? (fun p => p.type == "text") with
    | some p =>
      match p.text with
      | some t => t
      | none => ""
    | none => ""
  | .other => ""

/-- One element of `choices` in a synthesized stream chunk: `content`
is the `delta.content` field (`none` when the delta object is empty). -/
structure DeltaChoice where
  index : Nat
  content : Option String
  finish_reason : Option String
deriving DecidableEq, Repr

/-- One synthesized server-sent event: a chat-completion chunk, or the
closing `data: [DONE]` sentinel. -/
inductive StreamEvent
  | chunk (model : String) (choices : List DeltaChoice) (usage : Option Usage)
  | done
deriving DecidableEq, Repr

/-- The stream synthesized by `getModelInstance` for `stream=true`:
one content chunk carrying the whole response (`result.response || ''`),
one final chunk with empty delta, `finish_reason="stop"` and the coerced
usage, and the `[DONE]` sentinel. -/
def synthesizeStream (modelNameOption : String) (result : VSCodeChatResponse) :
    List StreamEvent :=
  [ .chunk (modelIdOrDefault result.model modelNameOption)
      [⟨0, some (result.response.getD ""), none⟩] none,
    .chunk (modelIdOrDefault result.model modelNameOption)
      [⟨0, none, some "stop"⟩] (some (mkUsage result.model)),
    .done ]

/-- The adapter's non-streaming OpenAI-style response object (the
fields the claims are about). -/
structure OpenAIResponse where
  content : String
  finish_reason : String
  model : String
  usage : Usage
deriving DecidableEq, Repr

/-- The non-streaming branch of `getModelInstance`. -/
def nonStreamingResponse (modelNameOption : String) (result : VSCodeChatResponse) :
    OpenAIResponse :=
  { content := result.response.getD ""
    finish_reason := "stop"
    model := modelIdOrDefault result.model modelNameOption
    usage := mkUsage result.model }

/-- The adapter's dispatch on `originalRequestBody.stream === true`. -/
def adapterResponse (stream : Bool) (modelNameOption : String)
    (result : VSCodeChatResponse) : Sum (List StreamEvent) OpenAIResponse :=
  if stream then .inl (synthesizeStream modelNameOption result)
  else .inr (nonStreamingResponse modelNameOption result)

/-- Concatenation of the `delta.content` fields of one event (an absent
content field contributes nothing; the sentinel contributes nothing). -/
def eventDeltaConcat : StreamEvent → String
  | .chunk _ cs _ => cs.foldr (fun c acc => c.content.getD "" ++ acc) ""
  | .done => ""

/-- Concatenation of the `delta.content` fields across a whole stream. -/
def streamDeltaConcat (es : List StreamEvent) : String :=
  es.foldr (fun e acc => eventDeltaConcat e ++ acc) ""

/-- JavaScript template interpolation of an optional string
(an absent value prints as the literal text `undefined`). -/
def optText : Option String → String
  | some s => s
  | none => "undefined"

/-- The components of the bridge's HTTP reply the adapter observes:
status code, status text, and the parsed JSON body (only consulted when
the status is 2xx, as in the source). -/
structure BridgeHttpReply where
  status : Nat
  statusText : String
  body : VSCodeChatResponse
deriving DecidableEq, Repr

/-- The adapter's handling of the bridge reply in `getModelInstance`:
`!response.ok` (status outside 200..299) throws one generic error built
from the status text; a parsed body with `success=false` throws one
generic error built from the body's error string; otherwise the parsed
body flows on.  `Except.error` carries only the message string, so no
error kind survives. -/
def handleBridgeReply (reply : BridgeHttpReply) : Except String VSCodeChatResponse :=
  if reply.status < 200 ∨ 300 ≤ reply.status then
    .error ("VS Code LLM Bridge error: " ++ reply.statusText)
  else if reply.body.success = false then
    .error ("VS Code LLM error: " ++ optText reply.body.error)
  else .ok reply.body

/-- Whether the character list `p` occurs at the start of `s`. -/
def charsLead : List Char → List Char → Bool
  | [], _ => true
  | _ :: _, [] => false
  | a :: as, b :: bs => a = b && charsLead as bs

/-- Whether the character list `p` occurs anywhere inside `s`. -/
def charsOccur (p : List Char) : List Char → Bool
  | [] => p.isEmpty
  | b :: bs => charsLead p (b :: bs) || charsOccur p bs

/-- Whether the string `pat` occurs as a contiguous substring of `s`. -/
def strOccurs (pat s : String) : Bool :=
  charsOccur pat.data s.data

/-- One message of the minimal bridge protocol (`{content}`; role is not
representable). -/
structure BridgeMsg where
  content : String
deriving DecidableEq, Repr

/-- The `messages` field of a parsed `/api/chat` request body as the
handler's guard `!messages || !Array.isArray(messages)` distinguishes
it: absent (`undefined`), some non-array value (whose truthiness is all
the guard consults), or an array. -/
inductive MessagesField
  | missing
  | nonArray (truthy : Bool)
  | array (msgs : List BridgeMsg)
deriving DecidableEq, Repr

/-- An optional model selector (`{id?, vendor?, family?}`). -/
structure Selector where
  id : Option String
  vendor : Option String
  family : Option String
deriving DecidableEq, Repr

/-- A parsed `/api/chat` request body: `model = none` models a missing
or falsy `requestedModel` (the guard is plain truthiness). -/
structure ReqBody where
  messages : MessagesField
  model : Option Selector
deriving DecidableEq, Repr

/-- A model descriptor as returned by the host gateway. -/
structure ModelDesc where
  id : String
  vendor : String
  family : String
  name : String
deriving DecidableEq, Repr

/-- The JSON reply of `/api/chat` (status plus body fields). -/
structure Reply where
  status : Nat
  success : Bool
  response : Option String
  model : Option ModelDesc
  error : Option String
deriving DecidableEq, Repr

/-- The `/api/chat` Express handler of the extension entry file,
parameterized by the host gateway: `select` is
`vscode.lm.selectChatModels` (given `none` when `requestedModel` is
falsy), `invoke` is the model request plus stream collection; either may
fail with an error message, caught by the surrounding try as a 500 reply
carrying `error.message`.  The second component records which models
were invoked (the call trace of `model.sendRequest`). -/
def chatHandler (select : Option Selector → Except String (List ModelDesc))
    (invoke : ModelDesc → List BridgeMsg → Except String String)
    (body : ReqBody) : Reply × List ModelDesc :=
  match body.messages with
  | .missing => (⟨400, false, none, none, some "Messages array is required"⟩, [])
  | .nonArray _ => (⟨400, false, none, none, some "Messages array is required"⟩, [])
  | .array msgs =>
    match select body.model with
    | .error e => (⟨500, false, none, none, some e⟩, [])
    | .ok [] => (⟨404, false, none, none, some "No language models available"⟩, [])
    | .ok (m :: _) =>
      match invoke m msgs with
      | .error e => (⟨500, false, none, none, some e⟩, [m])
      | .ok resp => (⟨200, true, some resp, some m, none⟩, [m])

/-- `success=true` iff `response` present and `error` absent. -/
def respErrConsistent (r : Reply) : Prop :=
  r.success = true ↔ (r.response.isSome = true ∧ r.error = none)

/-- The reply carries a non-empty error string. -/
def hasNonEmptyErr (r : Reply) : Prop :=
  ∃ e, r.error = some e ∧ e ≠ ""

/-- Exactly one of: `success=true`, or a non-empty error string. -/
def successXorError (r : Reply) : Prop :=
  (r.success = true ∧ ¬ hasNonEmptyErr r) ∨ (hasNonEmptyErr r ∧ r.success = false)

/-- One incoming framework message as the adapter sees it. -/
structure AdapterMsg where
  role : String
  content : MsgContent
deriving DecidableEq, Repr

/-- The bridge request body the streaming-capable adapter POSTs to
`/api/chat`: normalized messages only (`originalRequestBody.messages?.map(...) || []`);
no `model` field is included, whatever `modelNameOption` the framework
passed. -/
def buildBridgeBody (modelNameOption : String)
    (messages : Option (List AdapterMsg)) : ReqBody :=
  { messages := .array (((messages.getD []).map
      (fun m => { content := normalizeContent m.content })))
    model := none }

/-- The outcome of `startServer` together with the ports it tried to
bind, in order. -/
inductive StartOutcome
  | alreadyRunning
  | running (port : Nat)
  | failed
deriving DecidableEq, Repr

/-- The port-binding logic of `startServer` in the extension entry file:
if a server handle already exists, only a warning; otherwise bind the
preferred port; on an address-in-use error, bind `preferred+1` once (the
retry listener has no further error handler, so a second address-in-use
error is a fatal start failure); no third port is ever tried. -/
def startServer (serverUp : Bool) (busy : Nat → Bool) (preferred : Nat) :
    StartOutcome × List Nat :=
  if serverUp then (.alreadyRunning, [])
  else if busy preferred = false then (.running preferred, [preferred])
  else if busy (preferred + 1) = false then
    (.running (preferred + 1), [preferred, preferred + 1])
  else (.failed, [preferred, preferred + 1])

/-- A user-visible notification of the extension. -/
inductive Notice
  | info (s : String)
  | warning (s : String)
  | fatal (s : String)
deriving DecidableEq, Repr

/-- The `stopServer` function of the extension entry file, on the
server-handle state (`some p` = listening on port `p`, `none` =
stopped).  The close callback is modelled as completing with the call,
per the single-threaded cooperative scheduling of the slice: a present
handle is closed and cleared with an info message; a missing handle
yields only a warning, never an error. -/
def stopServer : Option Nat → Option Nat × Notice
  | some _ => (none, .info "LLM Bridge Server stopped")
  | none => (none, .warning "Server is not running!")

/-! Concrete fixtures used by witnesses and counterexamples. -/

/-- A successful bridge reply carrying the response text `"hi"`. -/
def resW1 : VSCodeChatResponse := ⟨true, some "hi", none, none⟩

/-- One concrete model descriptor. -/
def modelW : ModelDesc := ⟨"gpt-4o", "copilot", "gpt", "GPT-4o"⟩

/-- A host gateway that always reports exactly one model. -/
def selectOne : Option Selector → Except String (List ModelDesc) :=
  fun _ => .ok [modelW]

/-- A host gateway that reports zero models. -/
def selectZero : Option Selector → Except String (List ModelDesc) :=
  fun _ => .ok []

/-- A host invocation that always answers `"hello"`. -/
def invokeOk : ModelDesc → List BridgeMsg → Except String String :=
  fun _ _ => .ok "hello"

/-- A host invocation that throws an error whose message is the empty
string (`new Error("")` on the host side). -/
def invokeFailEmpty : ModelDesc → List BridgeMsg → Except String String :=
  fun _ _ => .error ""

/-- A 400 bridge reply whose body carries the validation error string. -/
def badReqReply : BridgeHttpReply :=
  ⟨400, "Bad Request", ⟨false, none, none, some "Messages array is required"⟩⟩

/-- A 200 reply whose parsed body has `success=false`. -/
def okFalseReply : BridgeHttpReply :=
  ⟨200, "OK", ⟨false, none, none, some "No language models available"⟩⟩

/-- A port-occupancy map where only port 3000 is bound. -/
def busyW : Nat → Bool := fun n => n == 3000

/-! Helper lemmas. -/

/-- A part list with no text-typed part has no `find?` hit. -/
theorem find_text_none (ps : List Part) (h : ∀ q ∈ ps, q.type ≠ "text") :
    ps.find? (fun p => p.type == "text") = none := by
  rw [List.find?_eq_none]
  intro x hx
  simpa using h x hx

/-- `normalizeContent` on an array whose first text-typed part is `p`. -/
theorem normalize_first_text (pre : List Part) (p : Part) (post : List Part)
    (hpre : ∀ q ∈ pre, q.type ≠ "text") (hp : p.type = "text") :
    normalizeContent (.parts (pre ++ p :: post)) =
      match p.text with
      | some t => t
      | none => "" := by
  simp only [normalizeContent]
  rw [List.find?_append, find_text_none pre hpre, Option.none_or,
    List.find?_cons_of_pos _ (by simp [hp])]

/-- Claim C1: for every streamed chat-completion request the bridge
answers successfully with response string `R` (including `R = ""`), the
synthesized stream is exactly three events in order: one delta event
whose content chunk is all of `R`, one terminal event with empty delta,
`finish_reason="stop"` and the coerced usage totals, and the closing
sentinel; concatenating the delta `content` fields yields `R` exactly
once. -/
theorem streaming_three_events (mn R : String) (res : VSCodeChatResponse)
    (h : res.response = some R) :
    adapterResponse true mn res = .inl
      [ .chunk (modelIdOrDefault res.model mn) [⟨0, some R, none⟩] none,
        .chunk (modelIdOrDefault res.model mn) [⟨0, none, some "stop"⟩]
          (some (mkUsage res.model)),
        .done ] ∧
    (synthesizeStream mn res).length = 3 ∧
    streamDeltaConcat (synthesizeStream mn res) = R := by
  refine ⟨?_, rfl, ?_⟩
  · simp [adapterResponse, synthesizeStream, h]
  · simp [synthesizeStream, streamDeltaConcat, eventDeltaConcat, h]

/-- Witness for C1 at the concrete response `"hi"`. -/
theorem streaming_three_events_witness :
    adapterResponse true "gpt-4o" resW1 = .inl
      [ .chunk (modelIdOrDefault resW1.model "gpt-4o") [⟨0, some "hi", none⟩] none,
        .chunk (modelIdOrDefault resW1.model "gpt-4o") [⟨0, none, some "stop"⟩]
          (some (mkUsage resW1.model)),
        .done ] ∧
    (synthesizeStream "gpt-4o" resW1).length = 3 ∧
    streamDeltaConcat (synthesizeStream "gpt-4o" resW1) = "hi" :=
  streaming_three_events "gpt-4o" "hi" resW1 rfl

/-- Claim C6: content normalization uses a string verbatim; on an array
of typed parts it returns the text of the first part whose type is
`"text"` (empty when that part carries no text), and the empty string
when no such part exists; the spec's three examples hold; any other
shape yields the empty string. -/
theorem normalize_content_spec :
    (∀ s, normalizeContent (.str s) = s) ∧
    (∀ pre p post t, (∀ q ∈ pre, q.type ≠ "text") → p.type = "text" →
      p.text = some t → normalizeContent (.parts (pre ++ p :: post)) = t) ∧
    (∀ pre p post, (∀ q ∈ pre, q.type ≠ "text") → p.type = "text" →
      p.text = none → normalizeContent (.parts (pre ++ p :: post)) = "") ∧
    (∀ ps, (∀ q ∈ ps, q.type ≠ "text") → normalizeContent (.parts ps) = "") ∧
    normalizeContent (.parts [⟨"text", some "hi"⟩, ⟨"image", none⟩]) = "hi" ∧
    normalizeContent (.str "hi") = "hi" ∧
    normalizeContent (.parts []) = "" ∧
    normalizeContent .other = "" := by
  refine ⟨fun s => rfl, ?_, ?_, ?_, rfl, rfl, rfl, rfl⟩
  · intro pre p post t hpre hp ht
    rw [normalize_first_text pre p post hpre hp, ht]
  · intro pre p post hpre hp ht
    rw [normalize_first_text pre p post hpre hp, ht]
  · intro ps h
    simp only [normalizeContent]
    rw [find_text_none ps h]

/-- Witness for C6: the first text part is extracted even after a
non-text part. -/
theorem normalize_content_spec_witness :
    normalizeContent (.parts [⟨"image", none⟩, ⟨"text", some "yo"⟩]) = "yo" :=
  normalize_content_spec.2.1 [⟨"image", none⟩] ⟨"text", some "yo"⟩ [] "yo"
    (by decide) rfl rfl

/-- Claim C7: both the streaming final chunk and the non-streaming
response embed the same coerced usage object, and each counter coerces
to `0` whenever its source field is missing (`undefined`) or is not a
valid number (`Number(v)` is NaN); `coerceToken` is total, so the
coercion cannot throw. -/
theorem usage_coercion (mn : String) (res : VSCodeChatResponse) :
    (nonStreamingResponse mn res).usage = mkUsage res.model ∧
    (synthesizeStream mn res)[1]? =
      some (.chunk (modelIdOrDefault res.model mn) [⟨0, none, some "stop"⟩]
        (some (mkUsage res.model))) ∧
    (∀ v, (v = JVal.absent ∨ toNumber v = none) → coerceToken v = 0) := by
  refine ⟨rfl, rfl, ?_⟩
  intro v hv
  rcases hv with h | h
  · subst h; rfl
  · unfold coerceToken
    rw [h]
    cases htv : truthy v <;> simp

/-- Witness for C7 at a response with no model object (all counters
absent) and at the absent counter value. -/
theorem usage_coercion_witness :
    (nonStreamingResponse "gpt-4o" resW1).usage = mkUsage resW1.model ∧
    coerceToken JVal.absent = 0 :=
  ⟨(usage_coercion "gpt-4o" resW1).1,
   (usage_coercion "gpt-4o" resW1).2.2 JVal.absent (Or.inl rfl)⟩

/-- Counterexample to claim C2: an empty `messages` array passes the
guard `!messages || !Array.isArray(messages)`, so the handler does not
respond 400 and it does invoke the host model (the trace records the
invocation). -/
theorem messages_validation_counterexample :
    (chatHandler selectOne invokeOk ⟨.array [], none⟩).1.status = 200 ∧
    (chatHandler selectOne invokeOk ⟨.array [], none⟩).1.success = true ∧
    (chatHandler selectOne invokeOk ⟨.array [], none⟩).2 = [modelW] :=
  ⟨rfl, rfl, rfl⟩

/-- Claim C2 as amended: whenever `messages` is missing or not an
array, the handler responds 400 with `success=false` and error
`"Messages array is required"` and never invokes the host model; an
empty array is not rejected. -/
theorem messages_validation_amended
    (select : Option Selector → Except String (List ModelDesc))
    (invoke : ModelDesc → List BridgeMsg → Except String String)
    (mdl : Option Selector) (mf : MessagesField)
    (h : mf = .missing ∨ ∃ t, mf = .nonArray t) :
    (chatHandler select invoke ⟨mf, mdl⟩).1 =
      ⟨400, false, none, none, some "Messages array is required"⟩ ∧
    (chatHandler select invoke ⟨mf, mdl⟩).2 = [] := by
  rcases h with h | ⟨t, h⟩ <;> subst h <;> exact ⟨rfl, rfl⟩

/-- Witness for the amended C2 at a missing `messages` field. -/
theorem messages_validation_amended_witness :
    (chatHandler selectOne invokeOk ⟨.missing, none⟩).1 =
      ⟨400, false, none, none, some "Messages array is required"⟩ ∧
    (chatHandler selectOne invokeOk ⟨.missing, none⟩).2 = [] :=
  messages_validation_amended selectOne invokeOk none .missing (Or.inl rfl)

/-- Claim C3: with no explicit model selector the invoked model is the
head of the list the host gateway returns with no filter
(`listModels()[0]`); and whenever model resolution yields the empty
list, the handler replies 404 `"No language models available"` and
invokes no model. -/
theorem model_resolution
    (select : Option Selector → Except String (List ModelDesc))
    (invoke : ModelDesc → List BridgeMsg → Except String String)
    (msgs : List BridgeMsg) (sel : Option Selector) :
    (∀ m rest, select none = .ok (m :: rest) →
      (chatHandler select invoke ⟨.array msgs, none⟩).2 = [m]) ∧
    (select sel = .ok [] →
      chatHandler select invoke ⟨.array msgs, sel⟩ =
        (⟨404, false, none, none, some "No language models available"⟩, [])) := by
  constructor
  · intro m rest h
    cases hi : invoke m msgs <;> simp [chatHandler, h, hi]
  · intro h
    simp [chatHandler, h]

/-- Witness for C3: the single available model is invoked when no
selector is given, and zero models yield the 404 reply. -/
theorem model_resolution_witness :
    (chatHandler selectOne invokeOk ⟨.array [⟨"hi"⟩], none⟩).2 = [modelW] ∧
    chatHandler selectZero invokeOk ⟨.array [⟨"hi"⟩], none⟩ =
      (⟨404, false, none, none, some "No language models available"⟩, []) :=
  ⟨(model_resolution selectOne invokeOk [⟨"hi"⟩] none).1 modelW [] rfl,
   (model_resolution selectZero invokeOk [⟨"hi"⟩] none).2 rfl⟩

/-- Counterexample to claim C5: when the host invocation throws an
error whose message is the empty string, the validated request's reply
has `success=false` and `error=""`, so neither side of the XOR holds. -/
theorem success_xor_counterexample :
    (chatHandler selectOne invokeFailEmpty ⟨.array [⟨"hi"⟩], none⟩).1.success = false ∧
    (chatHandler selectOne invokeFailEmpty ⟨.array [⟨"hi"⟩], none⟩).1.error = some "" ∧
    ¬ successXorError (chatHandler selectOne invokeFailEmpty ⟨.array [⟨"hi"⟩], none⟩).1 := by
  refine ⟨rfl, rfl, ?_⟩
  intro hx
  rcases hx with ⟨h1, _⟩ | ⟨⟨e, he, hne⟩, _⟩
  · exact Bool.noConfusion h1
  · exact hne (Option.some.inj he).symm

/-- Claim C5 as amended: for every validated request, `success=true`
iff `response` is present and `error` absent — unconditionally; and
provided every host-side failure message is non-empty, the reply
satisfies `success=true` XOR carrying a non-empty error string. -/
theorem success_xor_amended
    (select : Option Selector → Except String (List ModelDesc))
    (invoke : ModelDesc → List BridgeMsg → Except String String)
    (msgs : List BridgeMsg) (sel : Option Selector) :
    respErrConsistent (chatHandler select invoke ⟨.array msgs, sel⟩).1 ∧
    ((∀ s e, select s = .error e → e ≠ "") →
     (∀ m ms e, invoke m ms = .error e → e ≠ "") →
     successXorError (chatHandler select invoke ⟨.array msgs, sel⟩).1) := by
  constructor
  · cases hse : select sel with
    | error e => simp [chatHandler, hse, respErrConsistent]
    | ok ms =>
      cases ms with
      | nil => simp [chatHandler, hse, respErrConsistent]
      | cons m rest =>
        cases hiv : invoke m msgs <;>
          simp [chatHandler, hse, hiv, respErrConsistent]
  · intro hsel hinv
    cases hse : select sel with
    | error e =>
      exact Or.inr ⟨⟨e, by simp [chatHandler, hse], hsel sel e hse⟩,
        by simp [chatHandler, hse]⟩
    | ok ms =>
      cases ms with
      | nil =>
        exact Or.inr ⟨⟨"No language models available",
          by simp [chatHandler, hse], by decide⟩, by simp [chatHandler, hse]⟩
      | cons m rest =>
        cases hiv : invoke m msgs with
        | error e =>
          exact Or.inr ⟨⟨e, by simp [chatHandler, hse, hiv], hinv m msgs e hiv⟩,
            by simp [chatHandler, hse, hiv]⟩
        | ok resp =>
          refine Or.inl ⟨by simp [chatHandler, hse, hiv], ?_⟩
          rintro ⟨x, hx1, _⟩
          simp [chatHandler, hse, hiv] at hx1

/-- Witness for the amended C5 with a one-model gateway and a
successful invocation. -/
theorem success_xor_amended_witness :
    respErrConsistent (chatHandler selectOne invokeOk ⟨.array [⟨"hi"⟩], none⟩).1 ∧
    successXorError (chatHandler selectOne invokeOk ⟨.array [⟨"hi"⟩], none⟩).1 :=
  ⟨(success_xor_amended selectOne invokeOk [⟨"hi"⟩] none).1,
   (success_xor_amended selectOne invokeOk [⟨"hi"⟩] none).2
     (fun _ _ h => Except.noConfusion h) (fun _ _ _ h => Except.noConfusion h)⟩

/-- Claim C4: when the preferred port `p` is already bound, `startServer`
tries exactly the ports `p` and `p+1` in order: it succeeds on `p+1`
when free, fails fatally when `p+1` is also bound, and never attempts
`p+2`. -/
theorem port_fallback (busy : Nat → Bool) (p : Nat) (h : busy p = true) :
    (startServer false busy p).2 = [p, p + 1] ∧
    (busy (p + 1) = false → (startServer false busy p).1 = .running (p + 1)) ∧
    (busy (p + 1) = true → (startServer false busy p).1 = .failed) ∧
    (p + 2) ∉ (startServer false busy p).2 := by
  cases hb : busy (p + 1) <;> simp [startServer, h, hb]

/-- Witness for C4: with only port 3000 bound, the server starts on
port 3001 after trying exactly 3000 then 3001. -/
theorem port_fallback_witness :
    (startServer false busyW 3000).2 = [3000, 3000 + 1] ∧
    (busyW (3000 + 1) = false → (startServer false busyW 3000).1 = .running (3000 + 1)) ∧
    (busyW (3000 + 1) = true → (startServer false busyW 3000).1 = .failed) ∧
    (3000 + 2) ∉ (startServer false busyW 3000).2 :=
  port_fallback busyW 3000 rfl

/-- Counterexample to claim C8: on a non-2xx reply the adapter's
generic error carries the HTTP status text, not the bridge body's error
string — the body's `"Messages array is required"` does not occur in
the raised message. -/
theorem bridge_error_counterexample :
    handleBridgeReply badReqReply =
      .error "VS Code LLM Bridge error: Bad Request" ∧
    strOccurs "Messages array is required"
      "VS Code LLM Bridge error: Bad Request" = false := by
  exact ⟨rfl, by decide⟩

/-- Claim C8 as amended: a non-2xx HTTP status raises exactly one
generic error built from the HTTP status text (the bridge body's error
string is discarded after logging); a 2xx reply whose parsed body has
`success=false` raises exactly one generic error carrying the bridge's
error string; in both cases only the message string survives, so the
original error kind is not preserved. -/
theorem bridge_error_amended (reply : BridgeHttpReply) :
    (reply.status < 200 ∨ 300 ≤ reply.status →
      handleBridgeReply reply =
        .error ("VS Code LLM Bridge error: " ++ reply.statusText)) ∧
    (200 ≤ reply.status ∧ reply.status < 300 → reply.body.success = false →
      handleBridgeReply reply =
        .error ("VS Code LLM error: " ++ optText reply.body.error)) := by
  constructor
  · intro h
    simp [handleBridgeReply, h]
  · intro h hs
    have hn : ¬ (reply.status < 200 ∨ 300 ≤ reply.status) := by omega
    simp [handleBridgeReply, hn, hs]

/-- Witness for the amended C8 at a 400 reply and at a 200 reply with
`success=false`. -/
theorem bridge_error_amended_witness :
    handleBridgeReply badReqReply =
      .error ("VS Code LLM Bridge error: " ++ badReqReply.statusText) ∧
    handleBridgeReply okFalseReply =
      .error ("VS Code LLM error: " ++ optText okFalseReply.body.error) :=
  ⟨(bridge_error_amended badReqReply).1 (Or.inr (by decide)),
   (bridge_error_amended okFalseReply).2 ⟨by decide, by decide⟩ rfl⟩

/-- Claim C9: stopping an already stopped server is a no-op that reports
a warning and never an error; two sequential `stop()` calls never raise,
the second reports the warning, and the state stays `Stopped`. -/
theorem stop_idempotent (st : Option Nat) :
    (stopServer st).1 = none ∧
    (stopServer (stopServer st).1).1 = none ∧
    (stopServer (stopServer st).1).2 = .warning "Server is not running!" ∧
    (∀ s, (stopServer st).2 ≠ .fatal s) ∧
    (∀ s, (stopServer (stopServer st).1).2 ≠ .fatal s) := by
  cases st <;>
    exact ⟨rfl, rfl, rfl, fun s h => Notice.noConfusion h,
      fun s h => Notice.noConfusion h⟩

/-- Claim C10: the streaming-capable adapter's bridge request body is
independent of the framework's model name and carries no model
selector, so the bridge resolves the head of the unfiltered model list
(`listModels()[0]`) whatever model the framework requested. -/
theorem stream_adapter_no_selector (mn1 mn2 : String)
    (msgs : Option (List AdapterMsg))
    (select : Option Selector → Except String (List ModelDesc))
    (invoke : ModelDesc → List BridgeMsg → Except String String) :
    buildBridgeBody mn1 msgs = buildBridgeBody mn2 msgs ∧
    (buildBridgeBody mn1 msgs).model = none ∧
    (∀ m rest, select none = .ok (m :: rest) →
      (chatHandler select invoke (buildBridgeBody mn1 msgs)).2 = [m]) := by
  refine ⟨rfl, rfl, ?_⟩
  intro m rest h
  cases hi : invoke m ((msgs.getD []).map
      (fun mm => { content := normalizeContent mm.content })) <;>
    simp [chatHandler, buildBridgeBody, h, hi]

/-- Witness for C10 at two different framework model names and a
one-model gateway. -/
theorem stream_adapter_no_selector_witness :
    buildBridgeBody "gpt-4o" (some [⟨"user", .str "hi"⟩]) =
      buildBridgeBody "claude" (some [⟨"user", .str "hi"⟩]) ∧
    (buildBridgeBody "gpt-4o" (some [⟨"user", .str "hi"⟩])).model = none ∧
    (chatHandler selectOne invokeOk
      (buildBridgeBody "gpt-4o" (some [⟨"user", .str "hi"⟩]))).2 = [modelW] :=
  ⟨(stream_adapter_no_selector "gpt-4o" "claude" (some [⟨"user", .str "hi"⟩])
      selectOne invokeOk).1,
   (stream_adapter_no_selector "gpt-4o" "claude" (some [⟨"user", .str "hi"⟩])
      selectOne invokeOk).2.1,
   (stream_adapter_no_selector "gpt-4o" "claude" (some [⟨"user", .str "hi"⟩])
      selectOne invokeOk).2.2 modelW [] rfl⟩

end VsLlm
